import Mathlib

/-!
# Verification of `src/clean_dataset.py` (EdgeVLM-Labs/data-prep-lab)

Shallow embedding of the video-quality cleaning pipeline:

* the acceptance evaluator `evaluate_video_acceptance` (lines 147-187),
* the frame-sampling loop of `analyze_video_quality` (lines 82-113),
* the decoder acquire/release control flow of `analyze_video_quality`
  (lines 62-64 and 115),
* the per-category statistics record `default_stats` (lines 190-203), the
  per-video stats update of `clean_dataset`'s inner loop (lines 310-340),
  the global-totals accumulation (lines 347-349) and the TOTAL row of
  `generate_cleaning_report` (lines 234-245).

Python floats that can be NaN (`mean_brightness`, `sharpness_score`, the
motion ratio fields) are embedded as `Option ℚ`, with `none` standing for
`float("nan")`; the source guards every use of these values with `np.isnan`
before comparing, which the embedding mirrors by matching on the option.
Machine integers stay well inside 64 bits here, so counters are plain `Nat`.
-/

/-! ## Threshold constants (clean_dataset.py lines 24-34) -/

def MIN_FRAME_WIDTH : Nat := 640
def MIN_FRAME_HEIGHT : Nat := 360
def MIN_SHARPNESS_SCORE : ℚ := 50
def MIN_BRIGHTNESS : ℚ := 35
def MAX_BRIGHTNESS : ℚ := 190
def NUM_SAMPLED_FRAMES : Nat := 20
def FRAME_STRIDE : Nat := 15

/-! ## Data model -/

/-- The metrics dict built by `analyze_video_quality` (lines 131-143).
`none` in an `Option ℚ` field embeds `float("nan")`.  The evaluator reads
`width`, `height`, `mean_brightness`, `sharpness_score`, `motion_detected`
and `motion_flag`; the remaining fields are carried for completeness. -/
structure VideoMetrics where
  width : Nat
  height : Nat
  mean_brightness : Option ℚ
  sharpness_score : Option ℚ
  motion_flag : Bool
  motion_detected : Bool
  motion_pairs : Nat := 0
  motion_active_pairs : Nat := 0
  motion_active_frame_pct : Option ℚ := none
  motion_mean_change_ratio : Option ℚ := none
  motion_max_change_ratio : Option ℚ := none
deriving Repr, DecidableEq

/-- The per-category statistics dict of `default_stats` (lines 190-203). -/
structure Stats where
  Exercise : String
  total_videos : Nat
  accepted_videos : Nat
  rejected_videos : Nat
  corrupted_files : Nat
  low_resolution : Nat
  too_dark : Nat
  too_bright : Nat
  blurry : Nat
  insufficient_motion : Nat
deriving Repr, DecidableEq

/-- `default_stats(exercise_name)` (lines 190-203): all counters zero. -/
def default_stats (exercise_name : String) : Stats :=
  { Exercise := exercise_name
    total_videos := 0
    accepted_videos := 0
    rejected_videos := 0
    corrupted_files := 0
    low_resolution := 0
    too_dark := 0
    too_bright := 0
    blurry := 0
    insufficient_motion := 0 }

/-! ## Acceptance evaluator (lines 147-187)

The Python function mutates the caller's `stats` dict and returns
`(accepted, reasons)`; the embedding passes the state explicitly and
returns `(accepted, reasons, stats)`. -/

def evaluate_video_acceptance (m : VideoMetrics) (issues : List String)
    (stats : Stats) : Bool × List String × Stats :=
  -- line 158: ("corrupted_file" in issues) or isnan(brightness) or isnan(sharpness)
  if issues.contains "corrupted_file" || m.mean_brightness.isNone
      || m.sharpness_score.isNone then
    (false, ["corrupted_file"],
      { stats with corrupted_files := stats.corrupted_files + 1 })
  else
    let brightness : ℚ := m.mean_brightness.getD 0
    let sharpness : ℚ := m.sharpness_score.getD 0
    let reasons : List String := []
    let accepted : Bool := true
    -- lines 163-166: resolution check
    let (reasons, accepted, stats) :=
      if m.width < MIN_FRAME_WIDTH ∨ m.height < MIN_FRAME_HEIGHT then
        (reasons ++ ["low_resolution"], false,
          { stats with low_resolution := stats.low_resolution + 1 })
      else (reasons, accepted, stats)
    -- lines 168-175: brightness check (if / elif)
    let (reasons, accepted, stats) :=
      if brightness < MIN_BRIGHTNESS then
        (reasons ++ ["too_dark"], false,
          { stats with too_dark := stats.too_dark + 1 })
      else if brightness > MAX_BRIGHTNESS then
        (reasons ++ ["too_bright"], false,
          { stats with too_bright := stats.too_bright + 1 })
      else (reasons, accepted, stats)
    -- lines 177-180: sharpness check
    let (reasons, accepted, stats) :=
      if sharpness < MIN_SHARPNESS_SCORE then
        (reasons ++ ["blurry"], false,
          { stats with blurry := stats.blurry + 1 })
      else (reasons, accepted, stats)
    -- lines 182-185: motion check
    let (reasons, accepted, stats) :=
      if (¬ m.motion_detected = true) ∧ m.motion_flag = true then
        (reasons ++ ["insufficient_motion"], false,
          { stats with insufficient_motion := stats.insufficient_motion + 1 })
      else (reasons, accepted, stats)
    (accepted, reasons, stats)

/-! ## Motion policy lookup (line 80)

`MOTION_FLAGS.get(exercise_name, False)`: the policy mapping is embedded as
an association list; a missing key defaults to `false` (motion disabled). -/

def MOTION_FLAGS_get (flags : List (String × Bool)) (exercise_name : String) :
    Bool :=
  (flags.lookup exercise_name).getD false

/-! ## Frame sampling loop (lines 82-113)

The `while` loop of `analyze_video_quality`.  `decode i` embeds whether
`cap.read()` succeeds after seeking to frame index `i`; the function returns
the indices of the successfully decoded (collected) frames in order.  The
guard `0 < frame_stride` makes the well-founded recursion go through; the
source always calls the loop with `FRAME_STRIDE = 15`, and with any positive
stride the embedding follows the source exactly. -/

def sampling_bound (frame_count num_frames frame_stride : Nat) : Nat :=
  max frame_count (num_frames * frame_stride + 1)

def sampleLoop (decode : Nat → Bool) (num_frames frame_stride bound : Nat)
    (samples_collected frame_index : Nat) : List Nat :=
  if _h : samples_collected < num_frames ∧ frame_index < bound
      ∧ 0 < frame_stride then
    if decode frame_index then
      frame_index ::
        sampleLoop decode num_frames frame_stride bound
          (samples_collected + 1) (frame_index + frame_stride)
    else
      sampleLoop decode num_frames frame_stride bound
        samples_collected (frame_index + frame_stride)
  else
    []
termination_by bound - frame_index
decreasing_by all_goals omega

/-! ## Decoder resource control flow (lines 62-64 and 115)

`analyze_video_quality` has exactly two exit paths: the early return at
line 64 when `cap.isOpened()` is false, and the main return at line 144,
which `cap.release()` at line 115 precedes unconditionally.  The trace of
decoder events along each path: -/

inductive DecoderEvent where
  | acquire
  | release
deriving DecidableEq, Repr

def analyze_decoder_trace (opened : Bool) : List DecoderEvent :=
  -- line 62: cap = cv2.VideoCapture(...)
  DecoderEvent.acquire ::
    (if opened then
      -- main path: the loop runs, then line 115: cap.release(), then return
      [DecoderEvent.release]
    else
      -- line 64: return {}, ["corrupted_file"]  (no release on this path)
      [])

/-! ## Stats accumulation -/

/-- Lines 347-349: `for key in totals: if key != "Exercise": totals[key] +=
exercise_stats[key]` — every counter field is added, the name is kept. -/
def add_stats (totals s : Stats) : Stats :=
  { totals with
    total_videos := totals.total_videos + s.total_videos
    accepted_videos := totals.accepted_videos + s.accepted_videos
    rejected_videos := totals.rejected_videos + s.rejected_videos
    corrupted_files := totals.corrupted_files + s.corrupted_files
    low_resolution := totals.low_resolution + s.low_resolution
    too_dark := totals.too_dark + s.too_dark
    too_bright := totals.too_bright + s.too_bright
    blurry := totals.blurry + s.blurry
    insufficient_motion := totals.insufficient_motion + s.insufficient_motion }

/-- The incrementally accumulated global totals of `clean_dataset`:
`totals = default_stats("ALL_EXERCISES")` (line 293) folded with
`add_stats` over the finalized per-category records (lines 347-349). -/
def fold_totals (records : List Stats) : Stats :=
  records.foldl add_stats (default_stats "ALL_EXERCISES")

/-- The `total_row` built by `generate_cleaning_report` (lines 234-245):
each counter column summed over the per-category rows. -/
def total_row (records : List Stats) : Stats :=
  { Exercise := "TOTAL"
    total_videos := (records.map Stats.total_videos).sum
    accepted_videos := (records.map Stats.accepted_videos).sum
    rejected_videos := (records.map Stats.rejected_videos).sum
    corrupted_files := (records.map Stats.corrupted_files).sum
    low_resolution := (records.map Stats.low_resolution).sum
    too_dark := (records.map Stats.too_dark).sum
    too_bright := (records.map Stats.too_bright).sum
    blurry := (records.map Stats.blurry).sum
    insufficient_motion := (records.map Stats.insufficient_motion).sum }

/-- The stats effect of one iteration of `clean_dataset`'s inner loop
(lines 310-340): `total_videos += 1` (line 310), the evaluator call
(line 314) which may bump reason counters, then exactly one of
`accepted_videos += 1` / `rejected_videos += 1` (lines 336-340). -/
def process_video (s : Stats) (m : VideoMetrics) (issues : List String) :
    Stats :=
  let s1 := { s with total_videos := s.total_videos + 1 }
  let r := evaluate_video_acceptance m issues s1
  let s2 := r.2.2
  if r.1 then { s2 with accepted_videos := s2.accepted_videos + 1 }
  else { s2 with rejected_videos := s2.rejected_videos + 1 }

/-- Scenario from the spec: 1280x720, brightness 100, sharpness 80,
motion-disabled category. -/
example :
    (evaluate_video_acceptance
      { width := 1280, height := 720, mean_brightness := some 100,
        sharpness_score := some 80, motion_flag := false,
        motion_detected := false }
      [] (default_stats "x")).1 = true := by decide

/-- Scenario from the spec: 320x240, brightness 20, sharpness 10,
motion-enabled, motion not detected. -/
example :
    (evaluate_video_acceptance
      { width := 320, height := 240, mean_brightness := some 20,
        sharpness_score := some 10, motion_flag := true,
        motion_detected := false }
      [] (default_stats "x")).2.1 =
      ["low_resolution", "too_dark", "blurry", "insufficient_motion"] := by
  decide

/-! ## Claim theorems -/

/-- C1: if "corrupted_file" is among the issues, or brightness is undefined,
or sharpness is undefined, the evaluator rejects immediately with reasons
exactly ["corrupted_file"]; no other check contributes a reason. -/
theorem c1_corrupted_short_circuit (m : VideoMetrics) (issues : List String)
    (stats : Stats)
    (h : "corrupted_file" ∈ issues ∨ m.mean_brightness = none
      ∨ m.sharpness_score = none) :
    (evaluate_video_acceptance m issues stats).1 = false ∧
      (evaluate_video_acceptance m issues stats).2.1 = ["corrupted_file"] := by
  unfold evaluate_video_acceptance
  rcases h with h | h | h <;> simp [h]

theorem c1_corrupted_short_circuit_witness :
    (evaluate_video_acceptance
      { width := 1280, height := 720, mean_brightness := none,
        sharpness_score := none, motion_flag := false,
        motion_detected := false }
      ["corrupted_file"] (default_stats "squat")).1 = false ∧
    (evaluate_video_acceptance
      { width := 1280, height := 720, mean_brightness := none,
        sharpness_score := none, motion_flag := false,
        motion_detected := false }
      ["corrupted_file"] (default_stats "squat")).2.1 = ["corrupted_file"] :=
  c1_corrupted_short_circuit _ _ _ (Or.inl (by decide))

/-- C2: off the corrupted path, a video violating the resolution,
darkness, sharpness and (enabled) motion checks is rejected with reasons
exactly ["low_resolution", "too_dark", "blurry", "insufficient_motion"]
in that order. -/
theorem c2_all_checks_fire (m : VideoMetrics) (issues : List String)
    (stats : Stats) (b s : ℚ)
    (hiss : "corrupted_file" ∉ issues)
    (hb : m.mean_brightness = some b) (hs : m.sharpness_score = some s)
    (hres : m.width < MIN_FRAME_WIDTH ∨ m.height < MIN_FRAME_HEIGHT)
    (hdark : b < MIN_BRIGHTNESS) (hblur : s < MIN_SHARPNESS_SCORE)
    (hmf : m.motion_flag = true) (hmd : m.motion_detected = false) :
    (evaluate_video_acceptance m issues stats).1 = false ∧
      (evaluate_video_acceptance m issues stats).2.1 =
        ["low_resolution", "too_dark", "blurry", "insufficient_motion"] := by
  unfold evaluate_video_acceptance
  simp [hiss, hb, hs, hres, hdark, hblur, hmf, hmd]

theorem c2_all_checks_fire_witness :
    (evaluate_video_acceptance
      { width := 320, height := 240, mean_brightness := some 20,
        sharpness_score := some 10, motion_flag := true,
        motion_detected := false }
      [] (default_stats "plank")).1 = false ∧
    (evaluate_video_acceptance
      { width := 320, height := 240, mean_brightness := some 20,
        sharpness_score := some 10, motion_flag := true,
        motion_detected := false }
      [] (default_stats "plank")).2.1 =
      ["low_resolution", "too_dark", "blurry", "insufficient_motion"] :=
  c2_all_checks_fire _ _ _ 20 10 (by decide) rfl rfl
    (Or.inl (by decide)) (by decide) (by decide) rfl rfl

/-- C3: the evaluator accepts exactly when the returned reasons list is
empty. -/
theorem c3_accepted_iff_no_reasons (m : VideoMetrics) (issues : List String)
    (stats : Stats) :
    (evaluate_video_acceptance m issues stats).1 = true ↔
      (evaluate_video_acceptance m issues stats).2.1 = [] := by
  simp only [evaluate_video_acceptance]
  split_ifs <;> simp_all

/-- C9: "too_dark" and "too_bright" never both appear in the reasons list:
the brightness check is an if/elif. -/
theorem c9_brightness_tags_exclusive (m : VideoMetrics) (issues : List String)
    (stats : Stats) :
    ¬("too_dark" ∈ (evaluate_video_acceptance m issues stats).2.1 ∧
      "too_bright" ∈ (evaluate_video_acceptance m issues stats).2.1) := by
  simp only [evaluate_video_acceptance]
  split_ifs <;> simp_all

/-- C6: when the motion policy maps the video's category to false, or the
category is absent from the mapping (defaulting to motion-disabled), the
metrics carry motion_flag = false, and "insufficient_motion" never appears
among the evaluator's reasons, whatever the frame content (here: whatever
motion_detected and the other metric fields are). -/
theorem c6_motion_disabled_no_tag (flags : List (String × Bool))
    (exercise_name : String) (m : VideoMetrics) (issues : List String)
    (stats : Stats)
    (hpol : flags.lookup exercise_name = some false
      ∨ flags.lookup exercise_name = none)
    (hm : m.motion_flag = MOTION_FLAGS_get flags exercise_name) :
    "insufficient_motion" ∉ (evaluate_video_acceptance m issues stats).2.1 := by
  have hflag : m.motion_flag = false := by
    rcases hpol with h | h <;> simp [hm, MOTION_FLAGS_get, h]
  simp only [evaluate_video_acceptance]
  split_ifs <;> simp_all

theorem c6_motion_disabled_no_tag_witness :
    "insufficient_motion" ∉
      (evaluate_video_acceptance
        { width := 320, height := 240, mean_brightness := some 20,
          sharpness_score := some 10, motion_flag := false,
          motion_detected := false }
        [] (default_stats "wall_sit")).2.1 :=
  c6_motion_disabled_no_tag [("pushup", true), ("wall_sit", false)]
    "wall_sit" _ _ _ (Or.inl (by decide)) (by decide)

/-- C7: each reason tag that appears in the returned list has its stats
counter incremented by exactly 1, and every other field of the stats record
(the name, total/accepted/rejected, and the counters of reasons that did
not fire) is left unchanged by the evaluator. -/
theorem c7_stats_frame (m : VideoMetrics) (issues : List String) (s : Stats) :
    ((evaluate_video_acceptance m issues s).2.2.Exercise = s.Exercise) ∧
    ((evaluate_video_acceptance m issues s).2.2.total_videos = s.total_videos) ∧
    ((evaluate_video_acceptance m issues s).2.2.accepted_videos
      = s.accepted_videos) ∧
    ((evaluate_video_acceptance m issues s).2.2.rejected_videos
      = s.rejected_videos) ∧
    ((evaluate_video_acceptance m issues s).2.2.corrupted_files =
      if "corrupted_file" ∈ (evaluate_video_acceptance m issues s).2.1
      then s.corrupted_files + 1 else s.corrupted_files) ∧
    ((evaluate_video_acceptance m issues s).2.2.low_resolution =
      if "low_resolution" ∈ (evaluate_video_acceptance m issues s).2.1
      then s.low_resolution + 1 else s.low_resolution) ∧
    ((evaluate_video_acceptance m issues s).2.2.too_dark =
      if "too_dark" ∈ (evaluate_video_acceptance m issues s).2.1
      then s.too_dark + 1 else s.too_dark) ∧
    ((evaluate_video_acceptance m issues s).2.2.too_bright =
      if "too_bright" ∈ (evaluate_video_acceptance m issues s).2.1
      then s.too_bright + 1 else s.too_bright) ∧
    ((evaluate_video_acceptance m issues s).2.2.blurry =
      if "blurry" ∈ (evaluate_video_acceptance m issues s).2.1
      then s.blurry + 1 else s.blurry) ∧
    ((evaluate_video_acceptance m issues s).2.2.insufficient_motion =
      if "insufficient_motion" ∈ (evaluate_video_acceptance m issues s).2.1
      then s.insufficient_motion + 1 else s.insufficient_motion) := by
  rcases hE : evaluate_video_acceptance m issues s with ⟨acc, rs, s2⟩
  simp only [evaluate_video_acceptance] at hE
  split_ifs at hE <;> (rcases hE with ⟨rfl, rfl, rfl⟩) <;> simp_all

/-- C4 counterexample: on the early exit taken when the decoder fails to
open the file (clean_dataset.py line 64), the function returns without a
release event — the handle is not released on that path. -/
theorem c4_counterexample :
    DecoderEvent.release ∉ analyze_decoder_trace false := by decide

/-- C4 amended: the decoder handle is released exactly on the exit path
where the decoder opened the file; on the early exit taken when the
decoder fails to open, the function returns without releasing it. -/
theorem c4_release_iff_opened (opened : Bool) :
    DecoderEvent.release ∈ analyze_decoder_trace opened ↔ opened = true := by
  cases opened <;> decide

/-! ## Sampling-loop lemmas -/

theorem sampleLoop_eq_nil (decode : Nat → Bool)
    (num_frames frame_stride bound c i : Nat)
    (h : num_frames ≤ c ∨ bound ≤ i) :
    sampleLoop decode num_frames frame_stride bound c i = [] := by
  unfold sampleLoop
  rw [dif_neg]
  omega

theorem sampleLoop_mem_spec (decode : Nat → Bool)
    (num_frames frame_stride bound : Nat) :
    ∀ fuel c i, bound - i ≤ fuel →
      ∀ j ∈ sampleLoop decode num_frames frame_stride bound c i,
        j < bound ∧ (∃ k, j = i + k * frame_stride) ∧ decode j = true := by
  intro fuel
  induction fuel with
  | zero =>
    intro c i hf j hj
    rw [sampleLoop_eq_nil decode num_frames frame_stride bound c i
      (Or.inr (by omega))] at hj
    exact absurd hj (List.not_mem_nil j)
  | succ n ih =>
    intro c i hf j hj
    unfold sampleLoop at hj
    by_cases hcond : c < num_frames ∧ i < bound ∧ 0 < frame_stride
    · rw [dif_pos hcond] at hj
      by_cases hd : decode i = true
      · rw [if_pos hd] at hj
        rcases List.mem_cons.mp hj with rfl | hj2
        · exact ⟨hcond.2.1, ⟨0, by ring⟩, hd⟩
        · obtain ⟨hb, ⟨k, hk⟩, hdec⟩ :=
            ih (c + 1) (i + frame_stride) (by omega) j hj2
          exact ⟨hb, ⟨k + 1, by rw [hk]; ring⟩, hdec⟩
      · rw [if_neg hd] at hj
        obtain ⟨hb, ⟨k, hk⟩, hdec⟩ :=
          ih c (i + frame_stride) (by omega) j hj
        exact ⟨hb, ⟨k + 1, by rw [hk]; ring⟩, hdec⟩
    · rw [dif_neg hcond] at hj
      exact absurd hj (List.not_mem_nil j)

theorem sampleLoop_length_le (decode : Nat → Bool)
    (num_frames frame_stride bound : Nat) :
    ∀ fuel c i, bound - i ≤ fuel →
      (sampleLoop decode num_frames frame_stride bound c i).length
        ≤ num_frames - c := by
  intro fuel
  induction fuel with
  | zero =>
    intro c i hf
    rw [sampleLoop_eq_nil decode num_frames frame_stride bound c i
      (Or.inr (by omega))]
    simp
  | succ n ih =>
    intro c i hf
    unfold sampleLoop
    by_cases hcond : c < num_frames ∧ i < bound ∧ 0 < frame_stride
    · rw [dif_pos hcond]
      by_cases hd : decode i = true
      · rw [if_pos hd]
        have := ih (c + 1) (i + frame_stride) (by omega)
        simp only [List.length_cons]
        omega
      · rw [if_neg hd]
        have := ih c (i + frame_stride) (by omega)
        omega
    · rw [dif_neg hcond]
      simp

/-- C5: the sampling loop is a total function of its inputs (termination);
started at index 0 with stride ≥ 1 it collects at most `num_frames` frames,
every collected index lies below `max(frame_count, num_frames*stride + 1)`,
is a multiple of the stride (only candidates 0, S, 2S, … are visited), and
was successfully decoded (failed decodes advance the index without
counting); the loop returns nothing as soon as `num_frames` frames are
collected or the index reaches/exceeds the bound. -/
theorem c5_sampling_loop (decode : Nat → Bool)
    (frame_count num_frames frame_stride c i : Nat)
    (_hS : 1 ≤ frame_stride) :
    (sampleLoop decode num_frames frame_stride
        (sampling_bound frame_count num_frames frame_stride) 0 0).length
      ≤ num_frames ∧
    (∀ j ∈ sampleLoop decode num_frames frame_stride
        (sampling_bound frame_count num_frames frame_stride) 0 0,
      j < sampling_bound frame_count num_frames frame_stride ∧
        frame_stride ∣ j ∧ decode j = true) ∧
    (num_frames ≤ c ∨ sampling_bound frame_count num_frames frame_stride ≤ i →
      sampleLoop decode num_frames frame_stride
        (sampling_bound frame_count num_frames frame_stride) c i = []) := by
  refine ⟨?_, ?_, ?_⟩
  · have := sampleLoop_length_le decode num_frames frame_stride
      (sampling_bound frame_count num_frames frame_stride)
      (sampling_bound frame_count num_frames frame_stride) 0 0 (by omega)
    omega
  · intro j hj
    obtain ⟨hb, ⟨k, hk⟩, hdec⟩ := sampleLoop_mem_spec decode num_frames
      frame_stride (sampling_bound frame_count num_frames frame_stride)
      (sampling_bound frame_count num_frames frame_stride) 0 0 (by omega) j hj
    exact ⟨hb, ⟨k, by rw [hk]; ring⟩, hdec⟩
  · intro h
    exact sampleLoop_eq_nil decode num_frames frame_stride _ c i h

theorem c5_sampling_loop_witness :
    (sampleLoop (fun j => j % 4 == 0) 3 15 (sampling_bound 10 3 15) 0 0).length
      ≤ 3 ∧
    sampleLoop (fun j => j % 4 == 0) 3 15 (sampling_bound 10 3 15) 3 46 = [] :=
  ⟨(c5_sampling_loop (fun j => j % 4 == 0) 10 3 15 3 46 (by decide)).1,
   (c5_sampling_loop (fun j => j % 4 == 0) 10 3 15 3 46 (by decide)).2.2
     (Or.inl (by decide))⟩

/-! ## Aggregation lemmas -/

theorem foldl_add_stats_proj (f : Stats → Nat)
    (hf : ∀ a b, f (add_stats a b) = f a + f b) :
    ∀ (records : List Stats) (acc : Stats),
      f (records.foldl add_stats acc) = f acc + (records.map f).sum := by
  intro records
  induction records with
  | nil => intro acc; simp
  | cons r rs ih =>
    intro acc
    simp only [List.foldl_cons, List.map_cons, List.sum_cons, ih, hf]
    ring

theorem fold_totals_proj (f : Stats → Nat)
    (hf : ∀ a b, f (add_stats a b) = f a + f b)
    (h0 : f (default_stats "ALL_EXERCISES") = 0) (records : List Stats) :
    f (fold_totals records) = (records.map f).sum := by
  simpa [fold_totals, h0] using
    foldl_add_stats_proj f hf records (default_stats "ALL_EXERCISES")

/-- C8: in every counter field, both the TOTAL row of the report and the
incrementally accumulated global totals equal the sum of that field over
the per-category records. -/
theorem c8_totals_are_sums (records : List Stats) :
    ((total_row records).total_videos = (records.map Stats.total_videos).sum ∧
      (fold_totals records).total_videos
        = (records.map Stats.total_videos).sum) ∧
    ((total_row records).accepted_videos
        = (records.map Stats.accepted_videos).sum ∧
      (fold_totals records).accepted_videos
        = (records.map Stats.accepted_videos).sum) ∧
    ((total_row records).rejected_videos
        = (records.map Stats.rejected_videos).sum ∧
      (fold_totals records).rejected_videos
        = (records.map Stats.rejected_videos).sum) ∧
    ((total_row records).corrupted_files
        = (records.map Stats.corrupted_files).sum ∧
      (fold_totals records).corrupted_files
        = (records.map Stats.corrupted_files).sum) ∧
    ((total_row records).low_resolution
        = (records.map Stats.low_resolution).sum ∧
      (fold_totals records).low_resolution
        = (records.map Stats.low_resolution).sum) ∧
    ((total_row records).too_dark = (records.map Stats.too_dark).sum ∧
      (fold_totals records).too_dark = (records.map Stats.too_dark).sum) ∧
    ((total_row records).too_bright = (records.map Stats.too_bright).sum ∧
      (fold_totals records).too_bright = (records.map Stats.too_bright).sum) ∧
    ((total_row records).blurry = (records.map Stats.blurry).sum ∧
      (fold_totals records).blurry = (records.map Stats.blurry).sum) ∧
    ((total_row records).insufficient_motion
        = (records.map Stats.insufficient_motion).sum ∧
      (fold_totals records).insufficient_motion
        = (records.map Stats.insufficient_motion).sum) :=
  ⟨⟨rfl, fold_totals_proj _ (fun _ _ => rfl) rfl records⟩,
   ⟨rfl, fold_totals_proj _ (fun _ _ => rfl) rfl records⟩,
   ⟨rfl, fold_totals_proj _ (fun _ _ => rfl) rfl records⟩,
   ⟨rfl, fold_totals_proj _ (fun _ _ => rfl) rfl records⟩,
   ⟨rfl, fold_totals_proj _ (fun _ _ => rfl) rfl records⟩,
   ⟨rfl, fold_totals_proj _ (fun _ _ => rfl) rfl records⟩,
   ⟨rfl, fold_totals_proj _ (fun _ _ => rfl) rfl records⟩,
   ⟨rfl, fold_totals_proj _ (fun _ _ => rfl) rfl records⟩,
   ⟨rfl, fold_totals_proj _ (fun _ _ => rfl) rfl records⟩⟩

/-- The evaluator never touches total_videos, accepted_videos or
rejected_videos (only `clean_dataset`'s loop does). -/
theorem evaluate_keeps_outcome_counts (m : VideoMetrics) (issues : List String)
    (s : Stats) :
    (evaluate_video_acceptance m issues s).2.2.total_videos = s.total_videos ∧
    (evaluate_video_acceptance m issues s).2.2.accepted_videos
      = s.accepted_videos ∧
    (evaluate_video_acceptance m issues s).2.2.rejected_videos
      = s.rejected_videos := by
  rcases hE : evaluate_video_acceptance m issues s with ⟨acc, rs, s2⟩
  simp only [evaluate_video_acceptance] at hE
  split_ifs at hE <;> (rcases hE with ⟨rfl, rfl, rfl⟩) <;> simp_all

/-- C10: processing one video adds exactly 1 to total_videos and exactly 1
to the accepted/rejected pair, so `total = accepted + rejected` is
preserved by each loop iteration; the invariant is also preserved when a
finalized category record is folded into the global totals, and it holds
of the all-zero initial record. -/
theorem c10_outcome_balance (s a b : Stats) (m : VideoMetrics)
    (issues : List String)
    (hs : s.total_videos = s.accepted_videos + s.rejected_videos)
    (ha : a.total_videos = a.accepted_videos + a.rejected_videos)
    (hb : b.total_videos = b.accepted_videos + b.rejected_videos) :
    ((process_video s m issues).total_videos = s.total_videos + 1) ∧
    ((process_video s m issues).accepted_videos
        + (process_video s m issues).rejected_videos
      = s.accepted_videos + s.rejected_videos + 1) ∧
    ((process_video s m issues).total_videos
      = (process_video s m issues).accepted_videos
        + (process_video s m issues).rejected_videos) ∧
    ((add_stats a b).total_videos
      = (add_stats a b).accepted_videos + (add_stats a b).rejected_videos) ∧
    ((default_stats "ALL_EXERCISES").total_videos
      = (default_stats "ALL_EXERCISES").accepted_videos
        + (default_stats "ALL_EXERCISES").rejected_videos) := by
  rcases hE : evaluate_video_acceptance m issues
      { s with total_videos := s.total_videos + 1 } with ⟨acc, rs, s2⟩
  obtain ⟨h1, h2, h3⟩ := evaluate_keeps_outcome_counts m issues
    { s with total_videos := s.total_videos + 1 }
  rw [hE] at h1 h2 h3
  dsimp only at h1 h2 h3
  have hP : process_video s m issues =
      if acc then { s2 with accepted_videos := s2.accepted_videos + 1 }
      else { s2 with rejected_videos := s2.rejected_videos + 1 } := by
    simp [process_video, hE]
  rw [hP]
  cases acc <;> simp_all [add_stats, default_stats] <;> omega

theorem c10_outcome_balance_witness :
    ((process_video (default_stats "pushup")
        { width := 1280, height := 720, mean_brightness := some 100,
          sharpness_score := some 80, motion_flag := false,
          motion_detected := false } []).total_videos
      = (default_stats "pushup").total_videos + 1) ∧
    ((process_video (default_stats "pushup")
        { width := 1280, height := 720, mean_brightness := some 100,
          sharpness_score := some 80, motion_flag := false,
          motion_detected := false } []).total_videos
      = (process_video (default_stats "pushup")
          { width := 1280, height := 720, mean_brightness := some 100,
            sharpness_score := some 80, motion_flag := false,
            motion_detected := false } []).accepted_videos
        + (process_video (default_stats "pushup")
            { width := 1280, height := 720, mean_brightness := some 100,
              sharpness_score := some 80, motion_flag := false,
              motion_detected := false } []).rejected_videos) :=
  ⟨(c10_outcome_balance (default_stats "pushup") (default_stats "squat")
      (default_stats "plank")
      { width := 1280, height := 720, mean_brightness := some 100,
        sharpness_score := some 80, motion_flag := false,
        motion_detected := false } [] (by decide) (by decide) (by decide)).1,
   (c10_outcome_balance (default_stats "pushup") (default_stats "squat")
      (default_stats "plank")
      { width := 1280, height := 720, mean_brightness := some 100,
        sharpness_score := some 80, motion_flag := false,
        motion_detected := false } [] (by decide) (by decide) (by decide)).2.2.1⟩
